import Mathlib

/-!
Verification of `devtools/convert_state.py`, a one-shot converter from the old
`.librarian/state.yaml` format to the new `librarian.yaml` format.

Python strings manipulated by the container-reference parser are modelled as
`List Char` (`PyStr`); Python's `str.split(sep)` for a one-character separator
is `List.splitOn`, `sep.join` is `List.intercalate`, and the substring test
`'@sha256' in s` is `List.isInfixOf`.  YAML mappings are modelled as Lean
structures whose optional fields are `Option`; a Python `dict[...]` lookup that
can raise `KeyError` is modelled in `Except`.
-/

/-- Python strings, as character lists, so that splitting and joining can be
reasoned about by list induction. -/
abbrev PyStr := List Char

/-- Python truthiness of `d.get(key)` when the value is a list:
true iff present and non-empty. -/
def truthyOptList {α : Type} (o : Option (List α)) : Bool :=
  match o with
  | none => false
  | some l => !l.isEmpty

/-- Python truthiness of `d.get(key)` when the value is a string:
true iff present and non-empty. -/
def truthyOptStr (o : Option String) : Bool :=
  match o with
  | none => false
  | some s => !s.isEmpty

/-- Python truthiness of `d.get(key)` when the value is a boolean. -/
def truthyOptBool (o : Option Bool) : Bool := o.getD false

/-- An entry of a library's `apis` list in the old state document:
`path` (required by the code) and an optional `service_config`. -/
structure OldApi where
  path : String
  service_config : Option String
deriving DecidableEq

/-- A library record of the old state document.  `id` is `Option` because the
code dereferences `lib['id']`, which raises `KeyError` when absent. -/
structure OldLibrary where
  id : Option String
  version : Option String
  apis : Option (List OldApi)
  preserve_regex : Option (List String)
  remove_regex : Option (List String)
deriving DecidableEq

/-- An entry of the new-format `generate.apis` list. -/
structure NewApi where
  path : String
  service_config : Option String
deriving DecidableEq

/-- The new-format `generate` section of a library record. -/
structure GenerateSection where
  apis : List NewApi
  keep : Option (List String)
  remove : Option (List String)
deriving DecidableEq

/-- A new-format library record: keys `name`, `version`, optionally
`generate`, optionally `_comment` (added by `main`, not `convert_library`). -/
structure NewLibrary where
  name : String
  version : Option String
  generate : Option GenerateSection
  _comment : Option String
deriving DecidableEq

/-- `convert_state.py` lines 26-31: convert one API entry; `service_config`
is included only when present and non-empty. -/
def convert_api (api : OldApi) : NewApi :=
  { path := api.path
    service_config :=
      if truthyOptStr api.service_config then api.service_config else none }

/-- `convert_state.py` lines 10-48, `convert_library`: the `lib['id']` lookup
can fail; `version` is copied via `lib.get('version')`; the `generate`
section is built only when `lib.get('apis')` is truthy, with `keep` and
`remove` present only when the corresponding old field is truthy. -/
def convert_library (lib : OldLibrary) : Except String NewLibrary :=
  match lib.id with
  | none => Except.error "KeyError: id"
  | some i =>
    Except.ok
      { name := i
        version := lib.version
        generate :=
          if truthyOptList lib.apis then
            some
              { apis := (lib.apis.getD []).map convert_api
                keep :=
                  if truthyOptList lib.preserve_regex then lib.preserve_regex
                  else none
                remove :=
                  if truthyOptList lib.remove_regex then lib.remove_regex
                  else none }
          else none
        _comment := none }

/-- A library record of the config document (`config.yaml`); `release_blocked`
is read with `lib.get('release_blocked')`. -/
structure ConfigLibrary where
  id : String
  release_blocked : Option Bool
deriving DecidableEq

/-- The config document: may lack the `libraries` key. -/
structure ConfigDoc where
  libraries : Option (List ConfigLibrary)
deriving DecidableEq

/-- The state document: `image` read with `state.get('image', '')` and
`libraries` with `state.get('libraries', [])`. -/
structure StateDoc where
  image : Option PyStr
  libraries : Option (List OldLibrary)
deriving DecidableEq

/-- `convert_state.py` lines 62-66: collect the ids of config libraries whose
`release_blocked` flag is truthy (the code builds a Python set; here a list,
used only for membership). -/
def releaseBlockedIds (config : ConfigDoc) : List String :=
  if truthyOptList config.libraries then
    ((config.libraries.getD []).filter
        (fun l => truthyOptBool l.release_blocked)).map (fun l => l.id)
  else []

/-- The digest marker `"@sha256"` searched for in the image reference. -/
def digestMarker : PyStr := "@sha256".toList

/-- Python's substring test `pat in s`: `pat` occurs contiguously in `s`. -/
def containsSub (pat : PyStr) : PyStr → Bool
  | [] => pat.isEmpty
  | c :: rest => pat.isPrefixOf (c :: rest) || containsSub pat rest

/-- Python `s.rsplit(sep, 1)` for a one-character separator: at most one
split, taken at the last occurrence. -/
def pyRSplit1 (c : Char) (s : PyStr) : List PyStr :=
  let parts := s.splitOn c
  if parts.length ≤ 1 then parts
  else [List.intercalate [c] parts.dropLast, parts.getLastD []]

/-- `convert_state.py` lines 69-80: parse the container image reference into
an `(image, tag)` pair.  Digest branch: split at `@`, drop the last `/`
segment of the base when the base contains `/`, and take the tag as the last
`:`-segment of the whole string when the base contains `:`.  Fallback branch:
`rsplit(':', 1)`. -/
def parse_image (image_full : PyStr) : PyStr × PyStr :=
  if containsSub digestMarker image_full then
    let image_base := (image_full.splitOn '@').headD []
    let image :=
      if image_base.contains '/' then
        List.intercalate ['/'] ((image_base.splitOn '/').dropLast)
      else image_base
    let tag :=
      if image_base.contains ':' then (image_full.splitOn ':').getLastD []
      else "latest".toList
    (image, tag)
  else
    let parts := pyRSplit1 ':' image_full
    let image := if parts.length > 1 then parts.headD [] else image_full
    let tag := if parts.length > 1 then parts.getD 1 [] else "latest".toList
    (image, tag)

/-- The new-format `container` section. -/
structure ContainerSection where
  image : PyStr
  tag : PyStr
deriving DecidableEq

/-- The constant `generate.defaults` mapping of the output document. -/
structure GenerateDefaults where
  transport : String
  rest_numeric_enums : Bool
  release_level : String
deriving DecidableEq

/-- The top-level `generate` section of the output document. -/
structure GenerateConfig where
  output_dir : String
  defaults : GenerateDefaults
deriving DecidableEq

/-- The top-level `release` section of the output document. -/
structure ReleaseConfig where
  tag_format : String
deriving DecidableEq

/-- The assembled output document, keys in insertion order `version`,
`language`, `container` (optional), `generate`, `release`, `libraries`. -/
structure OutputDoc where
  version : String
  language : String
  container : Option ContainerSection
  generate : GenerateConfig
  release : ReleaseConfig
  libraries : List NewLibrary
deriving DecidableEq

/-- The literal note text attached to release-blocked libraries
(`convert_state.py` line 118). -/
def releaseBlockedNote : String := "release_blocked: true (handwritten code)"

/-- `convert_state.py` lines 113-120, one iteration of the conversion loop:
convert the library, then attach `_comment` when `lib['id']` is in the
release-blocked set (a second `lib['id']` lookup, modelled fallibly). -/
def convertEntry (rb : List String) (lib : OldLibrary) :
    Except String NewLibrary :=
  match convert_library lib with
  | Except.error e => Except.error e
  | Except.ok converted =>
    match lib.id with
    | none => Except.error "KeyError: id"
    | some i =>
      if rb.contains i then
        Except.ok { converted with _comment := some releaseBlockedNote }
      else Except.ok converted

/-- `convert_state.py` lines 111-120, the conversion loop over
`state.get('libraries', [])`: sequential, aborting at the first error. -/
def convertAll (rb : List String) : List OldLibrary →
    Except String (List NewLibrary)
  | [] => Except.ok []
  | lib :: rest =>
    match convertEntry rb lib with
    | Except.error e => Except.error e
    | Except.ok c =>
      match convertAll rb rest with
      | Except.error e => Except.error e
      | Except.ok cs => Except.ok (c :: cs)

/-- `convert_state.py` lines 89-93: the `container` section, present only when
the parsed image is truthy (non-empty); its `image` drops anything from `@`
on, and its `tag` is the literal `'latest'`. -/
def containerOf (image : PyStr) : Option ContainerSection :=
  if image.isEmpty then none
  else
    some
      { image :=
          if image.contains '@' then (image.splitOn '@').headD []
          else image
        tag := "latest".toList }

/-- `convert_state.py` lines 50-136, `main` up to (but excluding) the file
write: extract the release-blocked set, parse the image, assemble the output
document.  The writer is modelled by the `Except.ok` result: an output
document exists only when conversion of the whole library list succeeded. -/
def mainE (state : StateDoc) (config : ConfigDoc) : Except String OutputDoc :=
  let release_blocked := releaseBlockedIds config
  let image_full := state.image.getD []
  let image := (parse_image image_full).1
  match convertAll release_blocked (state.libraries.getD []) with
  | Except.error e => Except.error e
  | Except.ok libraries =>
    Except.ok
      { version := "v0.5.0"
        language := "go"
        container := containerOf image
        generate :=
          { output_dir := "./"
            defaults :=
              { transport := "grpc+rest"
                rest_numeric_enums := true
                release_level := "stable" } }
        release := { tag_format := "\x7bid\x7d/v\x7bversion\x7d" }
        libraries := libraries }

/-- The converted-count reported by the summary line
`print(f"Converted {len(libraries)} ...")`. -/
def convertedCount (out : OutputDoc) : Nat := out.libraries.length

/-- `convert_state.py` lines 83-122: the top-level keys of the output dict in
insertion order (`container` is inserted only when the parsed image is
non-empty); `yaml.dump` is called with `sort_keys=False`, so serialization
keeps this order. -/
def outputTopLevelKeys (state : StateDoc) : List String :=
  let image := (parse_image (state.image.getD [])).1
  ["version", "language"] ++
    (if image.isEmpty then [] else ["container"]) ++
    ["generate", "release", "libraries"]

/-- The digest-branch tag rule as the claim phrases it (for comparison with
`parse_image`): the tag is resolved from any trailing `:`-segment found
BEFORE the `@`, defaulting to latest if none.  The code instead takes the
last `:`-segment of the whole string. -/
def specDigestTag (image_full : PyStr) : PyStr :=
  let image_base := (image_full.splitOn '@').headD []
  if image_base.contains ':' then (image_base.splitOn ':').getLastD []
  else "latest".toList

deriving instance DecidableEq for Except

/-! ### Concrete fixtures used to instantiate the theorems -/

/-- An API entry with a non-empty `service_config`. -/
def exApi1 : OldApi :=
  { path := "google/storage/v2", service_config := some "storage_v2.yaml" }

/-- An API entry whose `service_config` is present but empty (falsy). -/
def exApi2 : OldApi :=
  { path := "google/storage/control/v2", service_config := some "" }

/-- A library with APIs and a preserve set, release-blocked in `exConfig`. -/
def exLib1 : OldLibrary :=
  { id := some "storage"
    version := some "1.2.3"
    apis := some [exApi1, exApi2]
    preserve_regex := some ["foo.*"]
    remove_regex := none }

/-- A library with no `version` and no `apis`. -/
def exLib2 : OldLibrary :=
  { id := some "pubsub"
    version := none
    apis := none
    preserve_regex := none
    remove_regex := none }

/-- A state document with a digest-form image and two libraries. -/
def exState : StateDoc :=
  { image := some "gcr.io/foo/bar@sha256:abcd1234".toList
    libraries := some [exLib1, exLib2] }

/-- A config document: `storage` and `other` are release-blocked, `pubsub`
carries a false flag; `other` is absent from `exState`. -/
def exConfig : ConfigDoc :=
  { libraries := some
      [ { id := "storage", release_blocked := some true },
        { id := "other", release_blocked := some true },
        { id := "pubsub", release_blocked := some false } ] }

/-- The output document `mainE` produces from `exState` and `exConfig`. -/
def exOut : OutputDoc :=
  { version := "v0.5.0"
    language := "go"
    container := some { image := "gcr.io/foo".toList, tag := "latest".toList }
    generate :=
      { output_dir := "./"
        defaults :=
          { transport := "grpc+rest"
            rest_numeric_enums := true
            release_level := "stable" } }
    release := { tag_format := "\x7bid\x7d/v\x7bversion\x7d" }
    libraries :=
      [ { name := "storage"
          version := some "1.2.3"
          generate := some
            { apis :=
                [ { path := "google/storage/v2"
                    service_config := some "storage_v2.yaml" },
                  { path := "google/storage/control/v2"
                    service_config := none } ]
              keep := some ["foo.*"]
              remove := none }
          _comment := some releaseBlockedNote },
        { name := "pubsub", version := none, generate := none,
          _comment := none } ] }

/-- The record `convert_library` produces from `exLib1`. -/
def exNewLib1 : NewLibrary :=
  { name := "storage"
    version := some "1.2.3"
    generate := some
      { apis :=
          [ { path := "google/storage/v2"
              service_config := some "storage_v2.yaml" },
            { path := "google/storage/control/v2"
              service_config := none } ]
        keep := some ["foo.*"]
        remove := none }
    _comment := none }

/-- A state document whose image reference is the non-empty string `":v2"`:
the fallback parse yields an empty image, so no container section is
emitted. -/
def stateColonTag : StateDoc :=
  { image := some ":v2".toList, libraries := some [] }

/-- The output document `mainE` produces from `stateColonTag` and an empty
config: no container section at all, although the image reference `":v2"`
is non-empty. -/
def outColonTag : OutputDoc :=
  { version := "v0.5.0"
    language := "go"
    container := none
    generate :=
      { output_dir := "./"
        defaults :=
          { transport := "grpc+rest"
            rest_numeric_enums := true
            release_level := "stable" } }
    release := { tag_format := "\x7bid\x7d/v\x7bversion\x7d" }
    libraries := [] }

/-- A state document with the tag-form image of the spec's test vector. -/
def stateTagForm : StateDoc :=
  { image := some "gcr.io/foo/bar:v2".toList, libraries := some [] }

/-- The output document `mainE` produces from `stateTagForm` and an
empty config. -/
def outTagForm : OutputDoc :=
  { version := "v0.5.0"
    language := "go"
    container := some
      { image := "gcr.io/foo/bar".toList, tag := "latest".toList }
    generate :=
      { output_dir := "./"
        defaults :=
          { transport := "grpc+rest"
            rest_numeric_enums := true
            release_level := "stable" } }
    release := { tag_format := "\x7bid\x7d/v\x7bversion\x7d" }
    libraries := [] }

/-- A config document with no `libraries` key. -/
def emptyConfig : ConfigDoc := { libraries := none }

/-- A library record that lacks the `id` key. -/
def badLib : OldLibrary :=
  { id := none
    version := some "0.1.0"
    apis := none
    preserve_regex := none
    remove_regex := none }

/-- A state document whose second library record lacks the `id` key. -/
def badState : StateDoc :=
  { image := some "gcr.io/foo/bar:v2".toList
    libraries := some [exLib2, badLib] }

/-! ### List lemmas about `splitOn` -/

theorem splitOn_ne_nil (c : Char) (s : PyStr) : s.splitOn c ≠ [] := by
  rw [List.splitOn]
  exact List.splitOnP_ne_nil _ s

theorem splitOn_of_not_mem {c : Char} {s : PyStr} (h : c ∉ s) :
    s.splitOn c = [s] := by
  rw [List.splitOn]
  refine List.splitOnP_eq_single _ _ ?_
  intro x hx
  simp only [beq_iff_eq]
  intro hxc
  exact h (hxc ▸ hx)

theorem two_le_length_splitOnP {p : Char → Bool} {s : PyStr}
    (h : ∃ x ∈ s, p x = true) : 2 ≤ (s.splitOnP p).length := by
  induction s with
  | nil => simp at h
  | cons a t ih =>
    rw [List.splitOnP_cons]
    by_cases hpa : p a = true
    · simp only [hpa, if_pos, List.length_cons]
      have h1 : t.splitOnP p ≠ [] := List.splitOnP_ne_nil _ t
      have h2 : 0 < (t.splitOnP p).length := List.length_pos.mpr h1
      omega
    · rw [if_neg hpa, List.length_modifyHead]
      apply ih
      obtain ⟨x, hx, hpx⟩ := h
      rcases List.mem_cons.mp hx with h1 | h1
      · exact absurd (h1 ▸ hpx) hpa
      · exact ⟨x, h1, hpx⟩

theorem two_le_length_splitOn {c : Char} {s : PyStr} (h : c ∈ s) :
    2 ≤ (s.splitOn c).length := by
  rw [List.splitOn]
  exact two_le_length_splitOnP ⟨c, h, beq_self_eq_true c⟩

/-! ### Unfolding lemmas for the conversion pipeline -/

theorem convert_library_ok {lib : OldLibrary} {r : NewLibrary}
    (h : convert_library lib = Except.ok r) :
    ∃ i, lib.id = some i ∧
      r = { name := i
            version := lib.version
            generate :=
              if truthyOptList lib.apis then
                some
                  { apis := (lib.apis.getD []).map convert_api
                    keep :=
                      if truthyOptList lib.preserve_regex then
                        lib.preserve_regex
                      else none
                    remove :=
                      if truthyOptList lib.remove_regex then lib.remove_regex
                      else none }
              else none
            _comment := none } := by
  cases hid : lib.id with
  | none => rw [convert_library, hid] at h; cases h
  | some i =>
    rw [convert_library, hid] at h
    injection h with h
    exact ⟨i, rfl, h.symm⟩

theorem convertEntry_ok {rb : List String} {lib : OldLibrary} {r : NewLibrary}
    (h : convertEntry rb lib = Except.ok r) :
    ∃ c0, convert_library lib = Except.ok c0 ∧ lib.id = some c0.name ∧
      r = { c0 with
            _comment :=
              if rb.contains c0.name then some releaseBlockedNote
              else none } := by
  cases hcl : convert_library lib with
  | error e => rw [convertEntry, hcl] at h; cases h
  | ok c0 =>
    obtain ⟨i, hid, hrec⟩ := convert_library_ok hcl
    have hname : c0.name = i := by rw [hrec]
    simp only [convertEntry, hcl, hid] at h
    rw [← hname] at h
    refine ⟨c0, rfl, by rw [hid, hname], ?_⟩
    by_cases hmem : rb.contains c0.name = true
    · rw [if_pos hmem] at h
      rw [if_pos hmem]
      injection h with h
      exact h.symm
    · rw [if_neg hmem] at h
      rw [if_neg hmem]
      injection h with h
      cases c0
      simp_all

theorem convertAll_ok_length {rb : List String} {l : List OldLibrary}
    {ys : List NewLibrary} (h : convertAll rb l = Except.ok ys) :
    ys.length = l.length := by
  induction l generalizing ys with
  | nil =>
    rw [convertAll] at h
    injection h with h
    rw [← h]
    rfl
  | cons lib rest ih =>
    rw [convertAll] at h
    cases he : convertEntry rb lib with
    | error e => rw [he] at h; cases h
    | ok c =>
      rw [he] at h
      cases ha : convertAll rb rest with
      | error e => rw [ha] at h; cases h
      | ok cs =>
        rw [ha] at h
        injection h with h
        rw [← h, List.length_cons, List.length_cons, ih ha]

theorem convertAll_ok_get {rb : List String} {l : List OldLibrary}
    {ys : List NewLibrary} (h : convertAll rb l = Except.ok ys) :
    ∀ i (hi : i < ys.length) (hj : i < l.length),
      convertEntry rb (l.get ⟨i, hj⟩) = Except.ok (ys.get ⟨i, hi⟩) := by
  induction l generalizing ys with
  | nil => intro i hi hj; cases hj
  | cons lib rest ih =>
    rw [convertAll] at h
    cases he : convertEntry rb lib with
    | error e => rw [he] at h; cases h
    | ok c =>
      rw [he] at h
      cases ha : convertAll rb rest with
      | error e => rw [ha] at h; cases h
      | ok cs =>
        rw [ha] at h
        injection h with h
        subst h
        intro i hi hj
        cases i with
        | zero => exact he
        | succ n =>
          exact ih ha n (Nat.lt_of_succ_lt_succ hi) (Nat.lt_of_succ_lt_succ hj)

theorem convertAll_error_of_mem {rb : List String} {l : List OldLibrary}
    {lib : OldLibrary} {e0 : String} (hmem : lib ∈ l)
    (he : convertEntry rb lib = Except.error e0) :
    ∃ e, convertAll rb l = Except.error e := by
  induction l with
  | nil => cases hmem
  | cons a t ih =>
    rw [convertAll]
    cases ha : convertEntry rb a with
    | error e => exact ⟨e, rfl⟩
    | ok c =>
      rcases List.mem_cons.mp hmem with h1 | h1
      · rw [h1] at he; rw [he] at ha; cases ha
      · obtain ⟨e, hrec⟩ := ih h1
        rw [hrec]
        exact ⟨e, rfl⟩

theorem containerOf_tag {img : PyStr} {cont : ContainerSection}
    (h : containerOf img = some cont) : cont.tag = "latest".toList := by
  rw [containerOf] at h
  by_cases he : img.isEmpty = true
  · rw [if_pos he] at h; cases h
  · rw [if_neg he] at h
    injection h with h
    rw [← h]

theorem containerOf_isSome (img : PyStr) :
    (containerOf img).isSome = true ↔ img ≠ [] := by
  rw [containerOf]
  by_cases he : img.isEmpty = true
  · rw [if_pos he]
    simp [List.isEmpty_iff.mp he]
  · rw [if_neg he]
    simp only [Option.isSome_some, true_iff]
    intro hnil
    exact he (by rw [hnil]; rfl)

theorem mainE_ok_parts {s : StateDoc} {c : ConfigDoc} {out : OutputDoc}
    (h : mainE s c = Except.ok out) :
    convertAll (releaseBlockedIds c) (s.libraries.getD []) =
        Except.ok out.libraries ∧
    out.container = containerOf (parse_image (s.image.getD [])).1 ∧
    out.version = "v0.5.0" ∧ out.language = "go" := by
  simp only [mainE] at h
  cases ha : convertAll (releaseBlockedIds c) (s.libraries.getD []) with
  | error e => rw [ha] at h; cases h
  | ok libs =>
    rw [ha] at h
    injection h with h
    rw [← h]
    exact ⟨rfl, rfl, rfl, rfl⟩

theorem mainE_error_of_bad_entry {s : StateDoc} {c : ConfigDoc} {e0 : String}
    (h : convertAll (releaseBlockedIds c) (s.libraries.getD []) =
      Except.error e0) :
    mainE s c = Except.error e0 := by
  simp only [mainE]
  rw [h]

theorem convertAll_ok_names {rb : List String} {l : List OldLibrary}
    {ys : List NewLibrary} (h : convertAll rb l = Except.ok ys) :
    ys.map (fun r => r.name) = l.map (fun lib => lib.id.getD "") := by
  induction l generalizing ys with
  | nil =>
    rw [convertAll] at h
    injection h with h
    rw [← h]
    rfl
  | cons lib rest ih =>
    rw [convertAll] at h
    cases he : convertEntry rb lib with
    | error e => rw [he] at h; cases h
    | ok c =>
      rw [he] at h
      cases ha : convertAll rb rest with
      | error e => rw [ha] at h; cases h
      | ok cs =>
        rw [ha] at h
        injection h with h
        subst h
        obtain ⟨c0, -, hid, hc⟩ := convertEntry_ok he
        have hn : c.name = c0.name := by rw [hc]
        rw [List.map_cons, List.map_cons, ih ha, hn, hid]
        rfl

/-- Claim C9: the conversion is deterministic — identical state and config
documents yield identical output documents (the embedding of `main` is a
pure function of its two inputs). -/
theorem claim_C9_deterministic (s₁ s₂ : StateDoc) (c₁ c₂ : ConfigDoc)
    (hs : s₁ = s₂) (hc : c₁ = c₂) : mainE s₁ c₁ = mainE s₂ c₂ := by
  rw [hs, hc]

theorem claim_C9_witness :
    exState = exState ∧ exConfig = exConfig ∧
    mainE exState exConfig = mainE exState exConfig :=
  ⟨rfl, rfl, claim_C9_deterministic exState exState exConfig exConfig rfl rfl⟩

/-- Claim C10: a library record with an identifier but no `version` field
converts without failing, producing a record whose `version` is null; the
identifier is the only field whose absence aborts `convert_library`. -/
theorem claim_C10_missing_version (lib : OldLibrary) (i : String)
    (hid : lib.id = some i) (hv : lib.version = none) :
    (∃ r, convert_library lib = Except.ok r ∧ r.name = i ∧
      r.version = none) ∧
    (∀ lib' : OldLibrary, lib'.id = none →
      convert_library lib' = Except.error "KeyError: id") := by
  constructor
  · simp only [convert_library, hid]
    exact ⟨_, rfl, rfl, hv⟩
  · intro lib' hid'
    simp only [convert_library, hid']

theorem claim_C10_witness :
    exLib2.id = some "pubsub" ∧ exLib2.version = none ∧
    ((∃ r, convert_library exLib2 = Except.ok r ∧ r.name = "pubsub" ∧
        r.version = none) ∧
     (∀ lib' : OldLibrary, lib'.id = none →
        convert_library lib' = Except.error "KeyError: id")) :=
  ⟨rfl, rfl, claim_C10_missing_version exLib2 "pubsub" rfl rfl⟩

/-- Claim C7: if some library record in the state document lacks an
identifier, the conversion aborts with a lookup error: `mainE` returns
`Except.error`, so no output document (and hence no output file) is
produced — the writer is modelled as reachable only on `Except.ok`. -/
theorem claim_C7_missing_id_aborts (s : StateDoc) (c : ConfigDoc)
    (h : ∃ lib ∈ s.libraries.getD [], lib.id = none) :
    ∃ e, mainE s c = Except.error e := by
  obtain ⟨lib, hmem, hid⟩ := h
  have he : convertEntry (releaseBlockedIds c) lib =
      Except.error "KeyError: id" := by
    simp only [convertEntry, convert_library, hid]
  obtain ⟨e, ha⟩ := convertAll_error_of_mem hmem he
  exact ⟨e, mainE_error_of_bad_entry ha⟩

theorem claim_C7_witness :
    (∃ lib ∈ badState.libraries.getD [], lib.id = none) ∧
    (∃ e, mainE badState exConfig = Except.error e) :=
  ⟨by decide, claim_C7_missing_id_aborts badState exConfig (by decide)⟩

/-- Claim C2: for a record with a truthy (present, non-empty) API list, the
converted record carries a `generate` section whose API paths match the
input in length and order, each API carrying `service_config` exactly when
the input's is present and non-empty, and `keep` / `remove` present exactly
when the old preserve / remove regex sets are present and non-empty; for a
record with an empty or missing API list, there is no `generate` section. -/
theorem claim_C2_generate_section (lib : OldLibrary) (r : NewLibrary)
    (h : convert_library lib = Except.ok r) :
    (truthyOptList lib.apis = true →
      ∃ g, r.generate = some g ∧
        g.apis.map (fun a => a.path) =
          (lib.apis.getD []).map (fun a => a.path) ∧
        g.apis.length = (lib.apis.getD []).length ∧
        (∀ i (hi : i < g.apis.length) (hj : i < (lib.apis.getD []).length),
          (g.apis.get ⟨i, hi⟩).service_config =
            if truthyOptStr ((lib.apis.getD []).get ⟨i, hj⟩).service_config
            then ((lib.apis.getD []).get ⟨i, hj⟩).service_config
            else none) ∧
        (g.keep =
          if truthyOptList lib.preserve_regex then lib.preserve_regex
          else none) ∧
        (g.remove =
          if truthyOptList lib.remove_regex then lib.remove_regex
          else none)) ∧
    (truthyOptList lib.apis = false → r.generate = none) := by
  obtain ⟨i, hid, hrec⟩ := convert_library_ok h
  constructor
  · intro ht
    rw [hrec]
    refine ⟨_, by rw [if_pos ht], ?_, ?_, ?_, rfl, rfl⟩
    · rw [List.map_map]
      exact List.map_congr_left (fun a _ => rfl)
    · rw [List.length_map]
    · intro j hj hj'
      simp only [List.get_eq_getElem, List.getElem_map, convert_api]
  · intro hf
    rw [hrec]
    simp only [hf, Bool.false_eq_true, if_false]

theorem claim_C2_witness :
    convert_library exLib1 = Except.ok exNewLib1 ∧
    ((truthyOptList exLib1.apis = true →
      ∃ g, exNewLib1.generate = some g ∧
        g.apis.map (fun a => a.path) =
          (exLib1.apis.getD []).map (fun a => a.path) ∧
        g.apis.length = (exLib1.apis.getD []).length ∧
        (∀ i (hi : i < g.apis.length)
            (hj : i < (exLib1.apis.getD []).length),
          (g.apis.get ⟨i, hi⟩).service_config =
            if truthyOptStr
                ((exLib1.apis.getD []).get ⟨i, hj⟩).service_config
            then ((exLib1.apis.getD []).get ⟨i, hj⟩).service_config
            else none) ∧
        (g.keep =
          if truthyOptList exLib1.preserve_regex then exLib1.preserve_regex
          else none) ∧
        (g.remove =
          if truthyOptList exLib1.remove_regex then exLib1.remove_regex
          else none)) ∧
     (truthyOptList exLib1.apis = false → exNewLib1.generate = none)) :=
  ⟨by decide, claim_C2_generate_section exLib1 exNewLib1 (by decide)⟩

/-- Claim C1: the output `libraries` sequence has one record per entry of the
state document's library list, in the same order, each record's `name` equal
to the input record's identifier; identifiers occur in the output exactly as
often as in the state document (hence exactly once when the state document's
identifiers are distinct); and an empty or missing library list yields an
empty output list with a converted-count of 0. -/
theorem claim_C1_library_sequence (s : StateDoc) (c : ConfigDoc)
    (out : OutputDoc) (h : mainE s c = Except.ok out) :
    out.libraries.length = (s.libraries.getD []).length ∧
    out.libraries.map (fun r => r.name) =
      (s.libraries.getD []).map (fun lib => lib.id.getD "") ∧
    (∀ x : String,
      (out.libraries.map (fun r => r.name)).count x =
        ((s.libraries.getD []).map (fun lib => lib.id.getD "")).count x) ∧
    (((s.libraries.getD []).map (fun lib => lib.id.getD "")).Nodup →
      ∀ x ∈ (s.libraries.getD []).map (fun lib => lib.id.getD ""),
        (out.libraries.map (fun r => r.name)).count x = 1) ∧
    (s.libraries.getD [] = [] →
      out.libraries = [] ∧ convertedCount out = 0) := by
  obtain ⟨ha, -, -, -⟩ := mainE_ok_parts h
  have hnames := convertAll_ok_names ha
  have hlen := convertAll_ok_length ha
  refine ⟨hlen, hnames, ?_, ?_, ?_⟩
  · intro x
    rw [hnames]
  · intro hnd x hx
    rw [hnames]
    exact List.count_eq_one_of_mem hnd hx
  · intro hnil
    rw [hnil, convertAll] at ha
    injection ha with ha
    refine ⟨ha.symm, ?_⟩
    rw [convertedCount, ← ha]
    rfl

theorem claim_C1_witness :
    mainE exState exConfig = Except.ok exOut ∧
    (exOut.libraries.length = (exState.libraries.getD []).length ∧
     exOut.libraries.map (fun r => r.name) =
       (exState.libraries.getD []).map (fun lib => lib.id.getD "") ∧
     (∀ x : String,
       (exOut.libraries.map (fun r => r.name)).count x =
         ((exState.libraries.getD []).map
             (fun lib => lib.id.getD "")).count x) ∧
     (((exState.libraries.getD []).map (fun lib => lib.id.getD "")).Nodup →
       ∀ x ∈ (exState.libraries.getD []).map (fun lib => lib.id.getD ""),
         (exOut.libraries.map (fun r => r.name)).count x = 1) ∧
     (exState.libraries.getD [] = [] →
       exOut.libraries = [] ∧ convertedCount exOut = 0)) :=
  ⟨by decide, claim_C1_library_sequence exState exConfig exOut (by decide)⟩

theorem mem_releaseBlockedIds (c : ConfigDoc) (x : String) :
    x ∈ releaseBlockedIds c ↔
      ∃ l ∈ c.libraries.getD [],
        l.id = x ∧ truthyOptBool l.release_blocked = true := by
  rw [releaseBlockedIds]
  by_cases ht : truthyOptList c.libraries = true
  · rw [if_pos ht]
    simp only [List.mem_map, List.mem_filter]
    constructor
    · rintro ⟨l, ⟨h1, h2⟩, h3⟩
      exact ⟨l, h1, h3, h2⟩
    · rintro ⟨l, h1, h2, h3⟩
      exact ⟨l, ⟨h1, h3⟩, h2⟩
  · rw [if_neg ht]
    cases hcl : c.libraries with
    | none => simp [hcl]
    | some ls =>
      cases ls with
      | nil => simp [hcl]
      | cons a t =>
        exfalso
        apply ht
        rw [hcl]
        rfl

/-- Claim C3: a library of the state document gets the `_comment` note with
the exact literal text iff its identifier carries a truthy `release_blocked`
flag in the config document; a config document without a library list yields
an empty release-blocked set, hence no notes. -/
theorem claim_C3_release_blocked_note (s : StateDoc) (c : ConfigDoc)
    (out : OutputDoc) (h : mainE s c = Except.ok out) :
    releaseBlockedNote = "release_blocked: true (handwritten code)" ∧
    (∀ i (hi : i < out.libraries.length)
        (hj : i < (s.libraries.getD []).length),
      (out.libraries.get ⟨i, hi⟩)._comment =
        if ((s.libraries.getD []).get ⟨i, hj⟩).id.getD "" ∈
            releaseBlockedIds c
        then some releaseBlockedNote else none) ∧
    (∀ x : String, x ∈ releaseBlockedIds c ↔
      ∃ l ∈ c.libraries.getD [],
        l.id = x ∧ truthyOptBool l.release_blocked = true) ∧
    (c.libraries = none → releaseBlockedIds c = []) := by
  obtain ⟨ha, -, -, -⟩ := mainE_ok_parts h
  refine ⟨rfl, ?_, mem_releaseBlockedIds c, ?_⟩
  · intro i hi hj
    have he := convertAll_ok_get ha i hi hj
    obtain ⟨c0, -, hid, hc⟩ := convertEntry_ok he
    rw [hc, hid]
    simp only [Option.getD_some]
    by_cases hmem : c0.name ∈ releaseBlockedIds c
    · rw [if_pos ((List.elem_iff).mpr hmem), if_pos hmem]
    · rw [if_neg (fun hh => hmem ((List.elem_iff).mp hh)), if_neg hmem]
  · intro hnone
    rw [releaseBlockedIds, hnone]
    rfl

theorem claim_C3_witness :
    mainE exState exConfig = Except.ok exOut ∧
    (releaseBlockedNote = "release_blocked: true (handwritten code)" ∧
     (∀ i (hi : i < exOut.libraries.length)
         (hj : i < (exState.libraries.getD []).length),
       (exOut.libraries.get ⟨i, hi⟩)._comment =
         if ((exState.libraries.getD []).get ⟨i, hj⟩).id.getD "" ∈
             releaseBlockedIds exConfig
         then some releaseBlockedNote else none) ∧
     (∀ x : String, x ∈ releaseBlockedIds exConfig ↔
       ∃ l ∈ exConfig.libraries.getD [],
         l.id = x ∧ truthyOptBool l.release_blocked = true) ∧
     (exConfig.libraries = none → releaseBlockedIds exConfig = [])) :=
  ⟨by decide,
    claim_C3_release_blocked_note exState exConfig exOut (by decide)⟩

/-- Claim C4, counterexample to the claim as stated: the state document
`stateColonTag` has the non-empty image reference `":v2"`, yet `mainE`
emits no container section at all (so there is no container section whose
tag is latest). -/
theorem claim_C4_counterexample :
    stateColonTag.image = some ":v2".toList ∧
    (":v2".toList : PyStr) ≠ [] ∧
    mainE stateColonTag emptyConfig = Except.ok outColonTag ∧
    outColonTag.container = none := by
  refine ⟨rfl, by decide, by decide, rfl⟩

/-- Claim C4 (amended): the container section is present iff the image the
parser computes is non-empty, and whenever present its tag is exactly the
literal latest — the tag the parser computes is never emitted. -/
theorem claim_C4_tag_latest (s : StateDoc) (c : ConfigDoc) (out : OutputDoc)
    (h : mainE s c = Except.ok out) :
    (∀ cont, out.container = some cont → cont.tag = "latest".toList) ∧
    (out.container.isSome = true ↔ (parse_image (s.image.getD [])).1 ≠ []) := by
  obtain ⟨-, hcont, -, -⟩ := mainE_ok_parts h
  constructor
  · intro cont hc
    rw [hcont] at hc
    exact containerOf_tag hc
  · rw [hcont]
    exact containerOf_isSome _

theorem claim_C4_witness :
    mainE exState exConfig = Except.ok exOut ∧
    ((∀ cont, exOut.container = some cont → cont.tag = "latest".toList) ∧
     (exOut.container.isSome = true ↔
       (parse_image (exState.image.getD [])).1 ≠ [])) :=
  ⟨by decide, claim_C4_tag_latest exState exConfig exOut (by decide)⟩

/-- Claim C8: the top-level keys of the assembled output document appear in
exactly the insertion order version, language, container (present only when
the parsed image is non-empty), generate, release, libraries — not in
alphabetical order.  `yaml.dump` is called with `sort_keys=False`, so
serialization keeps this insertion order. -/
theorem claim_C8_key_order (s : StateDoc) (c : ConfigDoc) (out : OutputDoc)
    (h : mainE s c = Except.ok out) :
    (out.container.isSome = true →
      outputTopLevelKeys s =
        ["version", "language", "container", "generate", "release",
         "libraries"]) ∧
    (out.container = none →
      outputTopLevelKeys s =
        ["version", "language", "generate", "release", "libraries"]) ∧
    outputTopLevelKeys s ≠
      ["container", "generate", "language", "libraries", "release",
       "version"] ∧
    outputTopLevelKeys s ≠
      ["generate", "language", "libraries", "release", "version"] := by
  obtain ⟨-, hcont, -, -⟩ := mainE_ok_parts h
  by_cases he : (parse_image (s.image.getD [])).1.isEmpty = true
  · have hnone : containerOf (parse_image (s.image.getD [])).1 = none := by
      rw [containerOf, if_pos he]
    refine ⟨?_, ?_, ?_, ?_⟩
    · intro hs
      rw [hcont, hnone] at hs
      cases hs
    · intro _
      rw [outputTopLevelKeys, if_pos he]
      rfl
    · rw [outputTopLevelKeys, if_pos he]
      decide
    · rw [outputTopLevelKeys, if_pos he]
      decide
  · have hsome :
        (containerOf (parse_image (s.image.getD [])).1).isSome = true := by
      rw [containerOf, if_neg he]
      rfl
    refine ⟨?_, ?_, ?_, ?_⟩
    · intro _
      rw [outputTopLevelKeys, if_neg he]
      rfl
    · intro hn
      rw [hcont] at hn
      rw [hn] at hsome
      cases hsome
    · rw [outputTopLevelKeys, if_neg he]
      decide
    · rw [outputTopLevelKeys, if_neg he]
      decide

theorem claim_C8_witness :
    mainE exState exConfig = Except.ok exOut ∧
    ((exOut.container.isSome = true →
       outputTopLevelKeys exState =
         ["version", "language", "container", "generate", "release",
          "libraries"]) ∧
     (exOut.container = none →
       outputTopLevelKeys exState =
         ["version", "language", "generate", "release", "libraries"]) ∧
     outputTopLevelKeys exState ≠
       ["container", "generate", "language", "libraries", "release",
        "version"] ∧
     outputTopLevelKeys exState ≠
       ["generate", "language", "libraries", "release", "version"]) :=
  ⟨by decide, claim_C8_key_order exState exConfig exOut (by decide)⟩

/-- Claim C5, counterexample to the claim as stated: for the digest-form
reference `host:5000/img@sha256:digest`, the tag the claim describes (the
trailing `:`-segment found before the `@`, here `5000/img`, as computed by
`specDigestTag`) differs from the tag the code computes, which is the last
`:`-segment of the WHOLE string, here `digest`. -/
theorem claim_C5_counterexample :
    containsSub digestMarker "host:5000/img@sha256:digest".toList = true ∧
    (parse_image "host:5000/img@sha256:digest".toList).2 =
      "digest".toList ∧
    specDigestTag "host:5000/img@sha256:digest".toList = "5000/img".toList ∧
    (parse_image "host:5000/img@sha256:digest".toList).2 ≠
      specDigestTag "host:5000/img@sha256:digest".toList := by decide

/-- Claim C5 (amended): for a reference containing the digest marker, the
parser splits at `@`; the image is everything before the `@` with its final
`/`-segment removed when that base contains a `/` (else the whole base);
and the tag is the last `:`-segment of the whole reference when the base
contains a `:`, defaulting to latest if it does not. -/
theorem claim_C5_digest_parse (s : PyStr)
    (hm : containsSub digestMarker s = true) :
    (parse_image s).1 =
      (if '/' ∈ (s.splitOn '@').headD [] then
        List.intercalate ['/']
          ((((s.splitOn '@').headD []).splitOn '/').dropLast)
      else (s.splitOn '@').headD []) ∧
    (parse_image s).2 =
      (if ':' ∈ (s.splitOn '@').headD [] then (s.splitOn ':').getLastD []
       else "latest".toList) := by
  simp only [parse_image, hm, if_true]
  constructor
  · by_cases h : '/' ∈ (s.splitOn '@').headD []
    · rw [if_pos ((List.elem_iff).mpr h), if_pos h]
    · rw [if_neg (fun hh => h ((List.elem_iff).mp hh)), if_neg h]
  · by_cases h : ':' ∈ (s.splitOn '@').headD []
    · rw [if_pos ((List.elem_iff).mpr h), if_pos h]
    · rw [if_neg (fun hh => h ((List.elem_iff).mp hh)), if_neg h]

theorem claim_C5_witness :
    containsSub digestMarker "host:5000/img@sha256:digest".toList = true ∧
    ((parse_image "host:5000/img@sha256:digest".toList).1 =
      (if '/' ∈ ("host:5000/img@sha256:digest".toList.splitOn '@').headD []
       then
        List.intercalate ['/']
          (((("host:5000/img@sha256:digest".toList.splitOn '@').headD
              []).splitOn '/').dropLast)
      else ("host:5000/img@sha256:digest".toList.splitOn '@').headD []) ∧
     (parse_image "host:5000/img@sha256:digest".toList).2 =
      (if ':' ∈ ("host:5000/img@sha256:digest".toList.splitOn '@').headD []
       then ("host:5000/img@sha256:digest".toList.splitOn ':').getLastD []
       else "latest".toList)) :=
  ⟨by decide,
    claim_C5_digest_parse "host:5000/img@sha256:digest".toList (by decide)⟩

/-- Claim C6: for a reference without the digest marker, the parser splits
at the last `:`: when a `:` is present the part after it is the tag and the
part before it is the image; when none is present the whole string is the
image and the tag defaults to latest; in particular `gcr.io/foo/bar:v2`
yields image `gcr.io/foo/bar`, and the final output forces the container
tag to latest. -/
theorem claim_C6_fallback_parse (s : PyStr)
    (hm : containsSub digestMarker s = false) :
    ((':' ∉ s → parse_image s = (s, "latest".toList)) ∧
     (':' ∈ s →
        parse_image s =
          (List.intercalate [':'] ((s.splitOn ':').dropLast),
           (s.splitOn ':').getLastD []))) ∧
    parse_image "gcr.io/foo/bar:v2".toList =
      ("gcr.io/foo/bar".toList, "v2".toList) ∧
    mainE stateTagForm emptyConfig = Except.ok outTagForm ∧
    outTagForm.container =
      some { image := "gcr.io/foo/bar".toList, tag := "latest".toList } := by
  refine ⟨⟨?_, ?_⟩, by decide, by decide, rfl⟩
  · intro h
    have hsp := splitOn_of_not_mem h
    simp only [parse_image, hm, Bool.false_eq_true, if_false, pyRSplit1, hsp]
    simp
  · intro h
    have h2 := two_le_length_splitOn h
    have hle : ¬(List.splitOn ':' s).length ≤ 1 := by omega
    simp only [parse_image, hm, Bool.false_eq_true, if_false, pyRSplit1,
      if_neg hle]
    simp

theorem claim_C6_witness :
    containsSub digestMarker "gcr.io/foo/bar:v2".toList = false ∧
    (((':' ∉ "gcr.io/foo/bar:v2".toList →
        parse_image "gcr.io/foo/bar:v2".toList =
          ("gcr.io/foo/bar:v2".toList, "latest".toList)) ∧
      (':' ∈ "gcr.io/foo/bar:v2".toList →
        parse_image "gcr.io/foo/bar:v2".toList =
          (List.intercalate [':']
            (("gcr.io/foo/bar:v2".toList.splitOn ':').dropLast),
           ("gcr.io/foo/bar:v2".toList.splitOn ':').getLastD []))) ∧
     parse_image "gcr.io/foo/bar:v2".toList =
       ("gcr.io/foo/bar".toList, "v2".toList) ∧
     mainE stateTagForm emptyConfig = Except.ok outTagForm ∧
     outTagForm.container =
       some { image := "gcr.io/foo/bar".toList, tag := "latest".toList }) :=
  ⟨by decide,
    claim_C6_fallback_parse "gcr.io/foo/bar:v2".toList (by decide)⟩
